import Mathlib

/-!
Verification of the Forecaster script (`forecast.py`).

The script loads a CSV table into a dataframe, derives a chosen compound
annual growth rate (CAGR) per row (locality-level CAGR if present, else
city-level CAGR), records the source of that rate, computes 1/2/3-year
price forecasts rounded to 2 decimal places, and writes the table back out.

Modelling choices:
* A missing value (pandas `NaN`) is `Option.none`; numeric cells are
  rationals `ℚ` (an exact idealisation of the script's float arithmetic).
* `np.where(cond, a, b)` on aligned columns is elementwise, so the
  column-wise operations of the script are embedded per row.
* `.round(2)` in pandas/numpy rounds half to even, as `roundHalfToEven`.
* The script's control flow (column accesses may raise `KeyError`, the
  output file is written only by the final `to_csv`) is embedded as an
  `Except`-valued run over a dynamic table: an `.error` result means the
  run aborted before anything was written, an `.ok` result is the table
  content written to the output file.
-/

namespace Forecast

/-- `np.round` / pandas `.round` rounding of a rational to an integer:
round half to even. -/
def roundHalfToEven (y : ℚ) : ℤ :=
  if y - ⌊y⌋ < 1 / 2 then ⌊y⌋
  else if y - ⌊y⌋ > 1 / 2 then ⌊y⌋ + 1
  else if ⌊y⌋ % 2 = 0 then ⌊y⌋ else ⌊y⌋ + 1

/-- `.round(2)`: round to 2 decimal places. -/
def round2 (x : ℚ) : ℚ := (roundHalfToEven (x * 100) : ℚ) / 100

/-- `df["chosen_cagr"] = np.where(df[loc_cagr_col].notna(), df[loc_cagr_col],
df[city_cagr_col])`, per row: the locality CAGR if it is not missing, else
the city CAGR (which may itself be missing). -/
def chosen_cagr (loc city : Option ℚ) : Option ℚ :=
  if loc.isSome then loc else city

/-- `df["cagr_source"] = np.where(df[loc_cagr_col].notna(), "locality",
np.where(df[city_cagr_col].notna(), "city", "none"))`, per row. -/
def cagr_source (loc city : Option ℚ) : String :=
  if loc.isSome then "locality"
  else if city.isSome then "city" else "none"

/-- `(df[price_col] * (1 + df["chosen_cagr"])**k).round(2)`, per row.
In pandas, arithmetic with a `NaN` operand yields `NaN`, and `.round`
of `NaN` is `NaN`: a missing operand propagates to a missing result. -/
def forecast (k : ℕ) (price cagr : Option ℚ) : Option ℚ :=
  match price, cagr with
  | some p, some c => some (round2 (p * (1 + c) ^ k))
  | _, _ => none

/-- One input row: the three columns the script reads, plus the remaining
original columns (opaque to the script, carried through unchanged). -/
structure Row where
  Price_per_SQFT : Option ℚ
  Locality_Level_Annual_CAGR : Option ℚ
  City_Level_Annual_CAGR : Option ℚ
  others : List (String × String)
deriving DecidableEq, Repr

/-- One output row: the input row (all original columns unchanged) plus
exactly the five columns the script adds. -/
structure OutRow where
  base : Row
  chosen_cagr : Option ℚ
  cagr_source : String
  Price_per_SQFT_plus_1yr : Option ℚ
  Price_per_SQFT_plus_2yr : Option ℚ
  Price_per_SQFT_plus_3yr : Option ℚ
deriving DecidableEq, Repr

/-- The whole per-row transformation of the script (lines 19-34 of
`forecast.py`). -/
def processRow (r : Row) : OutRow :=
  let chosen := chosen_cagr r.Locality_Level_Annual_CAGR r.City_Level_Annual_CAGR
  { base := r
    chosen_cagr := chosen
    cagr_source := cagr_source r.Locality_Level_Annual_CAGR r.City_Level_Annual_CAGR
    Price_per_SQFT_plus_1yr := forecast 1 r.Price_per_SQFT chosen
    Price_per_SQFT_plus_2yr := forecast 2 r.Price_per_SQFT chosen
    Price_per_SQFT_plus_3yr := forecast 3 r.Price_per_SQFT chosen }

/-- The table-level transformation: all column operations of the script are
elementwise over aligned columns, so the table map of `processRow`. -/
def forecastTable (t : List Row) : List OutRow := t.map processRow

/-- Restriction of an output row to the original columns. -/
def OutRow.restrict (o : OutRow) : Row := o.base

/-! ### Dynamic-table model

The typed `Row` model above fixes the schema. To reason about the script's
behaviour on an arbitrary CSV schema — a missing required column raises a
`KeyError` before the output file is written, column assignment by name
replaces an existing column of that name — the dataframe is also modelled
dynamically: a list of named columns in order, each a list of cells. -/

/-- A cell of the loaded dataframe: missing (`NaN`), numeric, or textual. -/
inductive Cell where
  | na : Cell
  | num : ℚ → Cell
  | str : String → Cell
deriving DecidableEq, Repr

/-- A dataframe: named columns, in column order. -/
abbrev DF : Type := List (String × List Cell)

def price_col : String := "Price_per_SQFT"

def city_cagr_col : String := "City_Level_Annual_CAGR"

def loc_cagr_col : String := "Locality_Level_Annual_CAGR"

/-- `df[c]` read access: the column when present, else a `KeyError` carrying
the column name. -/
def getCol (df : DF) (c : String) : Except String (List Cell) :=
  match df.lookup c with
  | some col => Except.ok col
  | none => Except.error c

/-- `df[c] = col` assignment: replaces the column when the name exists,
else appends it as the last column. -/
def setCol (df : DF) (c : String) (col : List Cell) : DF :=
  if (df.lookup c).isSome then
    df.map (fun p => if p.1 = c then (c, col) else p)
  else df ++ [(c, col)]

/-- `pd.notna` on a cell: false exactly on a missing value. -/
def Cell.notna : Cell → Bool
  | .na => false
  | _ => true

/-- One element of `np.where(loc.notna(), loc, city)`. -/
def cellChosen (l c : Cell) : Cell := if l.notna then l else c

/-- One element of the nested `np.where` producing `cagr_source`. -/
def cellSource (l c : Cell) : Cell :=
  Cell.str (if l.notna then "locality" else if c.notna then "city" else "none")

/-- One element of `(price * (1 + chosen)**k).round(2)`: numeric only when
both operands are numeric, else missing. -/
def cellForecast (k : ℕ) (p ch : Cell) : Cell :=
  match p, ch with
  | .num p, .num c => Cell.num (round2 (p * (1 + c) ^ k))
  | _, _ => Cell.na

/-- The whole script run on the loaded dataframe, column accesses in source
order. An `Except.error` is an uncaught `KeyError`: the run aborts and the
final `to_csv` never executes, so nothing is written. An `Except.ok` value
is the dataframe content written to the output file. -/
def runScript (df : DF) : Except String DF := do
  let loc ← getCol df loc_cagr_col
  let city ← getCol df city_cagr_col
  let df1 := setCol df "chosen_cagr" (List.zipWith cellChosen loc city)
  let df2 := setCol df1 "cagr_source" (List.zipWith cellSource loc city)
  let price ← getCol df2 price_col
  let chosen ← getCol df2 "chosen_cagr"
  let df3 := setCol df2 "Price_per_SQFT_plus_1yr" (List.zipWith (cellForecast 1) price chosen)
  let df4 := setCol df3 "Price_per_SQFT_plus_2yr" (List.zipWith (cellForecast 2) price chosen)
  let df5 := setCol df4 "Price_per_SQFT_plus_3yr" (List.zipWith (cellForecast 3) price chosen)
  pure df5

/-- The five column names the script assigns. -/
def newCols : List String :=
  ["chosen_cagr", "cagr_source",
   "Price_per_SQFT_plus_1yr", "Price_per_SQFT_plus_2yr", "Price_per_SQFT_plus_3yr"]

/-- An input table that has the three required columns and also already has a
column named `chosen_cagr`: the script overwrites that column. -/
def dfX : DF :=
  [(price_col, [Cell.num 100]), (loc_cagr_col, [Cell.num 1]),
   (city_cagr_col, [Cell.na]), ("chosen_cagr", [Cell.str "original"])]

/-! ### Helper lemmas -/

theorem floor_le_roundHalfToEven (y : ℚ) : ⌊y⌋ ≤ roundHalfToEven y := by
  unfold roundHalfToEven
  split_ifs <;> omega

theorem roundHalfToEven_le_floor_add_one (y : ℚ) : roundHalfToEven y ≤ ⌊y⌋ + 1 := by
  unfold roundHalfToEven
  split_ifs <;> omega

theorem roundHalfToEven_mono {x y : ℚ} (h : x ≤ y) :
    roundHalfToEven x ≤ roundHalfToEven y := by
  rcases lt_or_le ⌊x⌋ ⌊y⌋ with hf | hf
  · have h1 := roundHalfToEven_le_floor_add_one x
    have h2 := floor_le_roundHalfToEven y
    omega
  · have hfe : ⌊x⌋ = ⌊y⌋ := le_antisymm (Int.floor_le_floor h) hf
    have hd : x - ((⌊y⌋ : ℤ) : ℚ) ≤ y - ((⌊y⌋ : ℤ) : ℚ) := by
      rw [← hfe]
      have := Int.floor_le x
      linarith
    unfold roundHalfToEven
    rw [hfe]
    split_ifs <;> first | omega | linarith

theorem round2_mono {x y : ℚ} (h : x ≤ y) : round2 x ≤ round2 y := by
  unfold round2
  have h1 : roundHalfToEven (x * 100) ≤ roundHalfToEven (y * 100) :=
    roundHalfToEven_mono (by linarith)
  have h2 : ((roundHalfToEven (x * 100) : ℤ) : ℚ) ≤ ((roundHalfToEven (y * 100) : ℤ) : ℚ) := by
    exact_mod_cast h1
  linarith

theorem except_bind_ok {ε α β : Type} (a : α) (f : α → Except ε β) :
    (Except.ok a >>= f : Except ε β) = f a := rfl

theorem except_bind_error {ε α β : Type} (e : ε) (f : α → Except ε β) :
    (Except.error e >>= f : Except ε β) = Except.error e := rfl

theorem except_map_error {ε α β : Type} (e : ε) (f : α → β) :
    (f <$> (Except.error e : Except ε α) : Except ε β) = Except.error e := rfl

theorem except_map_ok {ε α β : Type} (a : α) (f : α → β) :
    (f <$> (Except.ok a : Except ε α) : Except ε β) = Except.ok (f a) := rfl

theorem lookup_cons_ne {β : Type} (l : List (String × β)) (k a : String) (v : β)
    (h : a ≠ k) : ((k, v) :: l).lookup a = l.lookup a := by
  have hb : (a == k) = false := beq_eq_false_iff_ne.mpr h
  simp [List.lookup, hb]

theorem lookup_append (l1 l2 : DF) (a : String) :
    (l1 ++ l2).lookup a = (l1.lookup a).or (l2.lookup a) := by
  induction l1 with
  | nil => simp [List.lookup]
  | cons hd tl ih =>
    rcases hd with ⟨k, v⟩
    by_cases h : a = k
    · subst h
      simp [List.lookup]
    · have hb : (a == k) = false := beq_eq_false_iff_ne.mpr h
      simp [List.lookup, hb, ih]

theorem lookup_append_of_ne (df : DF) (n m : String) (col : List Cell) (h : m ≠ n) :
    (df ++ [(n, col)]).lookup m = df.lookup m := by
  rw [lookup_append]
  rw [lookup_cons_ne _ _ _ _ h]
  simp [List.lookup]

theorem lookup_append_self (df : DF) (n : String) (col : List Cell)
    (h : df.lookup n = none) : (df ++ [(n, col)]).lookup n = some col := by
  rw [lookup_append, h]
  simp [List.lookup]

theorem lookup_append_left {df : DF} {c : String} {v : List Cell} (l : DF)
    (h : df.lookup c = some v) : (df ++ l).lookup c = some v := by
  rw [lookup_append, h]
  rfl

theorem lookup_map_replace (df : DF) (n m : String) (col : List Cell) (h : m ≠ n) :
    (df.map (fun p => if p.1 = n then (n, col) else p)).lookup m = df.lookup m := by
  induction df with
  | nil => rfl
  | cons hd tl ih =>
    rcases hd with ⟨k, v⟩
    by_cases hk : k = n
    · subst hk
      have hb : (m == k) = false := beq_eq_false_iff_ne.mpr h
      simp only [List.map_cons, if_pos rfl]
      simp [List.lookup, hb, ih]
    · by_cases hm : m = k
      · subst hm
        simp only [List.map_cons, if_neg hk]
        simp [List.lookup]
      · have hb : (m == k) = false := beq_eq_false_iff_ne.mpr hm
        simp only [List.map_cons, if_neg hk]
        simp [List.lookup, hb, ih]

theorem lookup_setCol_ne (df : DF) (n m : String) (col : List Cell) (h : m ≠ n) :
    (setCol df n col).lookup m = df.lookup m := by
  unfold setCol
  split_ifs
  · exact lookup_map_replace df n m col h
  · exact lookup_append_of_ne df n m col h

theorem setCol_absent (df : DF) (n : String) (col : List Cell)
    (h : df.lookup n = none) : setCol df n col = df ++ [(n, col)] := by
  simp [setCol, h]

theorem mem_of_lookup_eq_some {df : DF} {c : String} {col : List Cell}
    (h : df.lookup c = some col) : (c, col) ∈ df := by
  induction df with
  | nil => simp [List.lookup] at h
  | cons hd tl ih =>
    rcases hd with ⟨k, v⟩
    by_cases hk : c = k
    · subst hk
      simp [List.lookup] at h
      subst h
      exact List.mem_cons_self _ _
    · have hb : (c == k) = false := beq_eq_false_iff_ne.mpr hk
      simp [List.lookup, hb] at h
      exact List.mem_cons_of_mem _ (ih h)

/-- Restricting the output table to the original columns recovers the input
table: `processRow` keeps the input row intact in `base`. -/
theorem restrict_forecastTable (t : List Row) :
    (forecastTable t).map OutRow.restrict = t := by
  induction t with
  | nil => rfl
  | cons hd tl ih =>
    simp only [forecastTable, List.map_cons] at ih ⊢
    exact congrArg (List.cons hd) ih

/-! ### Claims -/

/-- C1: For every row, the chosen growth rate equals the locality CAGR when
present, else the city CAGR; the source is "locality" when the locality CAGR
is present, "city" when only the city CAGR is present, "none" when both are
absent. -/
theorem C1_growth_rate_selection (r : Row) :
    (∀ x : ℚ, r.Locality_Level_Annual_CAGR = some x →
      (processRow r).chosen_cagr = some x ∧ (processRow r).cagr_source = "locality") ∧
    (r.Locality_Level_Annual_CAGR = none →
      (processRow r).chosen_cagr = r.City_Level_Annual_CAGR) ∧
    (r.Locality_Level_Annual_CAGR = none → r.City_Level_Annual_CAGR.isSome →
      (processRow r).cagr_source = "city") ∧
    (r.Locality_Level_Annual_CAGR = none → r.City_Level_Annual_CAGR = none →
      (processRow r).cagr_source = "none") := by
  refine ⟨fun x hx => ?_, fun h => ?_, fun h h2 => ?_, fun h h2 => ?_⟩
  · simp [processRow, chosen_cagr, cagr_source, hx]
  · simp [processRow, chosen_cagr, h]
  · simp [processRow, cagr_source, h, h2]
  · simp [processRow, cagr_source, h, h2]

/-- Witness for C1 at three concrete rows covering the three cases. -/
theorem C1_growth_rate_selection_w :
    (processRow ⟨some 100, some (1/10), some (1/20), []⟩).chosen_cagr = some (1/10) ∧
    (processRow ⟨some 100, some (1/10), some (1/20), []⟩).cagr_source = "locality" ∧
    (processRow ⟨some 200, none, some (1/25), []⟩).cagr_source = "city" ∧
    (processRow ⟨some 300, none, none, []⟩).cagr_source = "none" :=
  ⟨((C1_growth_rate_selection _).1 (1/10) rfl).1,
   ((C1_growth_rate_selection _).1 (1/10) rfl).2,
   (C1_growth_rate_selection _).2.2.1 rfl rfl,
   (C1_growth_rate_selection _).2.2.2 rfl rfl⟩

/-- C2: When the price and the chosen growth rate are both present, the
k-year forecast equals `round(price * (1 + rate) ^ k, 2)` for k in {1, 2, 3}. -/
theorem C2_forecast_formula (r : Row) (p c : ℚ)
    (hp : r.Price_per_SQFT = some p)
    (hc : (processRow r).chosen_cagr = some c) :
    (processRow r).Price_per_SQFT_plus_1yr = some (round2 (p * (1 + c) ^ 1)) ∧
    (processRow r).Price_per_SQFT_plus_2yr = some (round2 (p * (1 + c) ^ 2)) ∧
    (processRow r).Price_per_SQFT_plus_3yr = some (round2 (p * (1 + c) ^ 3)) := by
  simp only [processRow] at hc ⊢
  rw [hp, hc]
  exact ⟨rfl, rfl, rfl⟩

/-- Witness for C2: price 100 with locality rate 0.10 and city rate 0.05
gives chosen rate 0.10, source "locality", and forecasts 110, 121, 133.1. -/
theorem C2_forecast_formula_w :
    (processRow ⟨some 100, some (1/10), some (1/20), []⟩).chosen_cagr = some (1/10) ∧
    (processRow ⟨some 100, some (1/10), some (1/20), []⟩).cagr_source = "locality" ∧
    (processRow ⟨some 100, some (1/10), some (1/20), []⟩).Price_per_SQFT_plus_1yr = some 110 ∧
    (processRow ⟨some 100, some (1/10), some (1/20), []⟩).Price_per_SQFT_plus_2yr = some 121 ∧
    (processRow ⟨some 100, some (1/10), some (1/20), []⟩).Price_per_SQFT_plus_3yr
      = some (1331/10) := by
  have h := C2_forecast_formula ⟨some 100, some (1/10), some (1/20), []⟩ 100 (1/10) rfl rfl
  refine ⟨rfl, rfl, ?_, ?_, ?_⟩
  · rw [h.1]; norm_num [round2, roundHalfToEven]
  · rw [h.2.1]; norm_num [round2, roundHalfToEven]
  · rw [h.2.2]; norm_num [round2, roundHalfToEven]

/-- C3: A missing price or a missing chosen growth rate makes all three
forecasts missing; in particular when both growth rates are absent the source
is "none" and all three forecasts are missing. No error is raised: the run
stays total (`processRow` is a total function). -/
theorem C3_missing_operand_propagates (r : Row) :
    (r.Price_per_SQFT = none ∨ (processRow r).chosen_cagr = none →
      (processRow r).Price_per_SQFT_plus_1yr = none ∧
      (processRow r).Price_per_SQFT_plus_2yr = none ∧
      (processRow r).Price_per_SQFT_plus_3yr = none) ∧
    (r.Locality_Level_Annual_CAGR = none → r.City_Level_Annual_CAGR = none →
      (processRow r).cagr_source = "none" ∧
      (processRow r).Price_per_SQFT_plus_1yr = none ∧
      (processRow r).Price_per_SQFT_plus_2yr = none ∧
      (processRow r).Price_per_SQFT_plus_3yr = none) := by
  constructor
  · rintro (hp | hc)
    · simp [processRow, forecast, hp]
    · simp only [processRow] at hc ⊢
      rw [hc]
      rcases r.Price_per_SQFT with _ | p <;> simp [forecast]
  · intro h h2
    simp [processRow, forecast, chosen_cagr, cagr_source, h, h2]

/-- Witness for C3 at a concrete row with both growth rates absent. -/
theorem C3_missing_operand_propagates_w :
    (processRow ⟨some 100, none, none, []⟩).cagr_source = "none" ∧
    (processRow ⟨some 100, none, none, []⟩).Price_per_SQFT_plus_1yr = none ∧
    (processRow ⟨some 100, none, none, []⟩).Price_per_SQFT_plus_2yr = none ∧
    (processRow ⟨some 100, none, none, []⟩).Price_per_SQFT_plus_3yr = none :=
  (C3_missing_operand_propagates _).2 rfl rfl

/-- When the three required columns are present and none of the five derived
column names occurs in the input, the run succeeds and the output is the
input with the five derived columns appended in order. -/
theorem runScript_ok (df : DF) (pcol lcol ccol : List Cell)
    (hp : df.lookup price_col = some pcol)
    (hl : df.lookup loc_cagr_col = some lcol)
    (hcy : df.lookup city_cagr_col = some ccol)
    (hnew : ∀ c ∈ newCols, df.lookup c = none) :
    runScript df = Except.ok
      (((((df ++ [("chosen_cagr", List.zipWith cellChosen lcol ccol)])
        ++ [("cagr_source", List.zipWith cellSource lcol ccol)])
        ++ [("Price_per_SQFT_plus_1yr",
             List.zipWith (cellForecast 1) pcol (List.zipWith cellChosen lcol ccol))])
        ++ [("Price_per_SQFT_plus_2yr",
             List.zipWith (cellForecast 2) pcol (List.zipWith cellChosen lcol ccol))])
        ++ [("Price_per_SQFT_plus_3yr",
             List.zipWith (cellForecast 3) pcol (List.zipWith cellChosen lcol ccol))]) := by
  have hne1 : df.lookup "chosen_cagr" = none := hnew _ (by simp [newCols])
  have hne2 : df.lookup "cagr_source" = none := hnew _ (by simp [newCols])
  have hne3 : df.lookup "Price_per_SQFT_plus_1yr" = none := hnew _ (by simp [newCols])
  have hne4 : df.lookup "Price_per_SQFT_plus_2yr" = none := hnew _ (by simp [newCols])
  have hne5 : df.lookup "Price_per_SQFT_plus_3yr" = none := hnew _ (by simp [newCols])
  have hgl : getCol df loc_cagr_col = Except.ok lcol := by simp [getCol, hl]
  have hgc : getCol df city_cagr_col = Except.ok ccol := by simp [getCol, hcy]
  have hset1 : setCol df "chosen_cagr" (List.zipWith cellChosen lcol ccol)
      = df ++ [("chosen_cagr", List.zipWith cellChosen lcol ccol)] :=
    setCol_absent _ _ _ hne1
  have hset2 : setCol (df ++ [("chosen_cagr", List.zipWith cellChosen lcol ccol)])
        "cagr_source" (List.zipWith cellSource lcol ccol)
      = (df ++ [("chosen_cagr", List.zipWith cellChosen lcol ccol)])
        ++ [("cagr_source", List.zipWith cellSource lcol ccol)] :=
    setCol_absent _ _ _ (by
      rw [lookup_append_of_ne _ _ _ _ (by decide)]
      exact hne2)
  have hgp : getCol ((df ++ [("chosen_cagr", List.zipWith cellChosen lcol ccol)])
        ++ [("cagr_source", List.zipWith cellSource lcol ccol)]) price_col
      = Except.ok pcol := by
    unfold getCol
    rw [lookup_append_of_ne _ _ _ _ (by decide), lookup_append_of_ne _ _ _ _ (by decide), hp]
  have hgch : getCol ((df ++ [("chosen_cagr", List.zipWith cellChosen lcol ccol)])
        ++ [("cagr_source", List.zipWith cellSource lcol ccol)]) "chosen_cagr"
      = Except.ok (List.zipWith cellChosen lcol ccol) := by
    unfold getCol
    rw [lookup_append_of_ne _ _ _ _ (by decide), lookup_append_self _ _ _ hne1]
  have hset3 : setCol ((df ++ [("chosen_cagr", List.zipWith cellChosen lcol ccol)])
        ++ [("cagr_source", List.zipWith cellSource lcol ccol)])
        "Price_per_SQFT_plus_1yr"
        (List.zipWith (cellForecast 1) pcol (List.zipWith cellChosen lcol ccol))
      = ((df ++ [("chosen_cagr", List.zipWith cellChosen lcol ccol)])
        ++ [("cagr_source", List.zipWith cellSource lcol ccol)])
        ++ [("Price_per_SQFT_plus_1yr",
             List.zipWith (cellForecast 1) pcol (List.zipWith cellChosen lcol ccol))] :=
    setCol_absent _ _ _ (by
      rw [lookup_append_of_ne _ _ _ _ (by decide), lookup_append_of_ne _ _ _ _ (by decide)]
      exact hne3)
  have hset4 : setCol (((df ++ [("chosen_cagr", List.zipWith cellChosen lcol ccol)])
        ++ [("cagr_source", List.zipWith cellSource lcol ccol)])
        ++ [("Price_per_SQFT_plus_1yr",
             List.zipWith (cellForecast 1) pcol (List.zipWith cellChosen lcol ccol))])
        "Price_per_SQFT_plus_2yr"
        (List.zipWith (cellForecast 2) pcol (List.zipWith cellChosen lcol ccol))
      = (((df ++ [("chosen_cagr", List.zipWith cellChosen lcol ccol)])
        ++ [("cagr_source", List.zipWith cellSource lcol ccol)])
        ++ [("Price_per_SQFT_plus_1yr",
             List.zipWith (cellForecast 1) pcol (List.zipWith cellChosen lcol ccol))])
        ++ [("Price_per_SQFT_plus_2yr",
             List.zipWith (cellForecast 2) pcol (List.zipWith cellChosen lcol ccol))] :=
    setCol_absent _ _ _ (by
      rw [lookup_append_of_ne _ _ _ _ (by decide), lookup_append_of_ne _ _ _ _ (by decide),
        lookup_append_of_ne _ _ _ _ (by decide)]
      exact hne4)
  have hset5 : setCol ((((df ++ [("chosen_cagr", List.zipWith cellChosen lcol ccol)])
        ++ [("cagr_source", List.zipWith cellSource lcol ccol)])
        ++ [("Price_per_SQFT_plus_1yr",
             List.zipWith (cellForecast 1) pcol (List.zipWith cellChosen lcol ccol))])
        ++ [("Price_per_SQFT_plus_2yr",
             List.zipWith (cellForecast 2) pcol (List.zipWith cellChosen lcol ccol))])
        "Price_per_SQFT_plus_3yr"
        (List.zipWith (cellForecast 3) pcol (List.zipWith cellChosen lcol ccol))
      = ((((df ++ [("chosen_cagr", List.zipWith cellChosen lcol ccol)])
        ++ [("cagr_source", List.zipWith cellSource lcol ccol)])
        ++ [("Price_per_SQFT_plus_1yr",
             List.zipWith (cellForecast 1) pcol (List.zipWith cellChosen lcol ccol))])
        ++ [("Price_per_SQFT_plus_2yr",
             List.zipWith (cellForecast 2) pcol (List.zipWith cellChosen lcol ccol))])
        ++ [("Price_per_SQFT_plus_3yr",
             List.zipWith (cellForecast 3) pcol (List.zipWith cellChosen lcol ccol))] :=
    setCol_absent _ _ _ (by
      rw [lookup_append_of_ne _ _ _ _ (by decide), lookup_append_of_ne _ _ _ _ (by decide),
        lookup_append_of_ne _ _ _ _ (by decide), lookup_append_of_ne _ _ _ _ (by decide)]
      exact hne5)
  simp only [runScript, hgl, hgc, except_bind_ok, hset1, hset2, hgp, hgch, hset3, hset4, hset5]
  rfl

/-- C4 counterexample: on an input table that contains the three required
columns but also already has a column named `chosen_cagr`, the run succeeds
and overwrites that original column, so the output does not preserve all
original columns. -/
theorem C4_original_column_overwritten_cx :
    ∃ out, runScript dfX = Except.ok out ∧
      out.lookup "chosen_cagr" ≠ dfX.lookup "chosen_cagr" := by
  refine ⟨_, rfl, ?_⟩
  decide

/-- C4 (amended): for every input table that contains the three required
columns and none of the five derived column names, the output consists of
exactly the input's columns, values unchanged, followed by exactly the five
new columns; with all input columns of length `n`, all output columns have
length `n` (same rows, same order and count — each original column is kept
verbatim, in order). -/
theorem C4_frame_and_schema (df : DF) (n : ℕ) (pcol lcol ccol : List Cell)
    (hp : df.lookup price_col = some pcol)
    (hl : df.lookup loc_cagr_col = some lcol)
    (hcy : df.lookup city_cagr_col = some ccol)
    (hlen : ∀ q ∈ df, (Prod.snd q).length = n)
    (hnew : ∀ c ∈ newCols, df.lookup c = none) :
    ∃ out, runScript df = Except.ok out ∧
      out.map Prod.fst = df.map Prod.fst ++ newCols ∧
      (∀ c v, df.lookup c = some v → out.lookup c = some v) ∧
      (∀ q ∈ out, (Prod.snd q).length = n) := by
  refine ⟨_, runScript_ok df pcol lcol ccol hp hl hcy hnew, ?_, ?_, ?_⟩
  · simp [newCols]
  · intro c v hcv
    exact lookup_append_left _ (lookup_append_left _ (lookup_append_left _
      (lookup_append_left _ (lookup_append_left _ hcv))))
  · have hlp : pcol.length = n := hlen _ (mem_of_lookup_eq_some hp)
    have hll : lcol.length = n := hlen _ (mem_of_lookup_eq_some hl)
    have hlc : ccol.length = n := hlen _ (mem_of_lookup_eq_some hcy)
    intro q hq
    simp only [List.mem_append, List.mem_singleton] at hq
    rcases hq with (((((hq | hq) | hq) | hq) | hq) | hq)
    · exact hlen _ hq
    all_goals subst hq
    all_goals simp only [List.length_zipWith, hlp, hll, hlc]
    all_goals omega

/-- Witness for the amended C4 at a one-row table with the three required
columns only. -/
theorem C4_frame_and_schema_w :
    ∃ out, runScript [(price_col, [Cell.num 100]), (loc_cagr_col, [Cell.num 1]),
        (city_cagr_col, [Cell.na])] = Except.ok out ∧
      out.map Prod.fst
        = [(price_col, [Cell.num 100]), (loc_cagr_col, [Cell.num 1]),
           (city_cagr_col, [Cell.na])].map Prod.fst ++ newCols ∧
      (∀ c v, [(price_col, [Cell.num 100]), (loc_cagr_col, [Cell.num 1]),
          (city_cagr_col, [Cell.na])].lookup c = some v → out.lookup c = some v) ∧
      (∀ q ∈ out, (Prod.snd q).length = 1) :=
  C4_frame_and_schema _ 1 [Cell.num 100] [Cell.num 1] [Cell.na] rfl rfl rfl
    (by simp) (by decide)

/-- C5: If any of the three required columns is missing from the input
table, the run raises a `KeyError` (an `Except.error`) and aborts before the
final write: no output dataframe is produced, so the output file is neither
produced nor modified. -/
theorem C5_missing_required_column_aborts (df : DF) (c : String)
    (hmem : c ∈ [price_col, loc_cagr_col, city_cagr_col])
    (hmiss : df.lookup c = none) :
    ∃ e, runScript df = Except.error e := by
  simp only [List.mem_cons, List.not_mem_nil, or_false] at hmem
  rcases hmem with hc | hc | hc <;> subst hc
  · cases hl : df.lookup loc_cagr_col with
    | none => exact ⟨loc_cagr_col, by simp [runScript, getCol, hl, except_bind_error]⟩
    | some lcol =>
      cases hcy : df.lookup city_cagr_col with
      | none =>
        exact ⟨city_cagr_col, by simp [runScript, getCol, hl, hcy, except_bind_ok, except_bind_error]⟩
      | some ccol =>
        have h2 : (setCol (setCol df "chosen_cagr" (List.zipWith cellChosen lcol ccol))
            "cagr_source" (List.zipWith cellSource lcol ccol)).lookup price_col = none := by
          rw [lookup_setCol_ne _ _ _ _ (by decide), lookup_setCol_ne _ _ _ _ (by decide)]
          exact hmiss
        exact ⟨price_col, by simp [runScript, getCol, hl, hcy, h2, except_bind_ok, except_bind_error]⟩
  · exact ⟨loc_cagr_col, by simp [runScript, getCol, hmiss, except_bind_error]⟩
  · cases hl : df.lookup loc_cagr_col with
    | none => exact ⟨loc_cagr_col, by simp [runScript, getCol, hl, except_bind_error]⟩
    | some lcol =>
      exact ⟨city_cagr_col, by simp [runScript, getCol, hl, hmiss, except_bind_ok, except_bind_error]⟩

/-- Witness for C5: a table with both CAGR columns but no price column makes
the run abort with a `KeyError` on the price column. -/
theorem C5_missing_required_column_aborts_w :
    ∃ e, runScript [(loc_cagr_col, [Cell.num 1]), (city_cagr_col, [Cell.na])]
      = Except.error e :=
  C5_missing_required_column_aborts
    [(loc_cagr_col, [Cell.num 1]), (city_cagr_col, [Cell.na])]
    price_col (by simp) rfl

/-- C6: Re-running the Forecaster on its own output restricted to the
original columns yields the same output, forecast columns included. (Running
it twice on the same input trivially agrees with one run: `forecastTable` is
a pure function of its input.) -/
theorem C6_idempotent (t : List Row) :
    forecastTable ((forecastTable t).map OutRow.restrict) = forecastTable t := by
  rw [restrict_forecastTable]

/-- C7: The forecast columns are deterministic functions of the price and the
chosen growth rate: rows agreeing on those two values get equal forecasts. -/
theorem C7_deterministic_in_inputs (r1 r2 : Row)
    (hp : r1.Price_per_SQFT = r2.Price_per_SQFT)
    (hc : (processRow r1).chosen_cagr = (processRow r2).chosen_cagr) :
    (processRow r1).Price_per_SQFT_plus_1yr = (processRow r2).Price_per_SQFT_plus_1yr ∧
    (processRow r1).Price_per_SQFT_plus_2yr = (processRow r2).Price_per_SQFT_plus_2yr ∧
    (processRow r1).Price_per_SQFT_plus_3yr = (processRow r2).Price_per_SQFT_plus_3yr := by
  simp only [processRow] at hc ⊢
  rw [hp, hc]
  exact ⟨rfl, rfl, rfl⟩

/-- Witness for C7: two rows with the same price whose chosen rate 0.10 comes
once from the locality CAGR and once from the city CAGR. -/
theorem C7_deterministic_in_inputs_w :
    (processRow ⟨some 100, some (1/10), none, []⟩).Price_per_SQFT_plus_1yr
      = (processRow ⟨some 100, none, some (1/10), []⟩).Price_per_SQFT_plus_1yr ∧
    (processRow ⟨some 100, some (1/10), none, []⟩).Price_per_SQFT_plus_2yr
      = (processRow ⟨some 100, none, some (1/10), []⟩).Price_per_SQFT_plus_2yr ∧
    (processRow ⟨some 100, some (1/10), none, []⟩).Price_per_SQFT_plus_3yr
      = (processRow ⟨some 100, none, some (1/10), []⟩).Price_per_SQFT_plus_3yr :=
  C7_deterministic_in_inputs _ _ rfl rfl

/-- C8: Each forecast column is present exactly when both the price and the
chosen growth rate are present. -/
theorem C8_forecast_present_iff_operands (r : Row) :
    ((processRow r).Price_per_SQFT_plus_1yr.isSome ↔
      r.Price_per_SQFT.isSome ∧ (processRow r).chosen_cagr.isSome) ∧
    ((processRow r).Price_per_SQFT_plus_2yr.isSome ↔
      r.Price_per_SQFT.isSome ∧ (processRow r).chosen_cagr.isSome) ∧
    ((processRow r).Price_per_SQFT_plus_3yr.isSome ↔
      r.Price_per_SQFT.isSome ∧ (processRow r).chosen_cagr.isSome) := by
  rcases hp : r.Price_per_SQFT with _ | p <;>
    rcases hch : chosen_cagr r.Locality_Level_Annual_CAGR r.City_Level_Annual_CAGR with _ | c <;>
      simp [processRow, forecast, hp, hch]

/-- C9: A chosen growth rate of zero leaves the (rounded) price unchanged at
every horizon. -/
theorem C9_zero_growth_identity (r : Row) (p : ℚ)
    (hp : r.Price_per_SQFT = some p)
    (hc : (processRow r).chosen_cagr = some 0) :
    (processRow r).Price_per_SQFT_plus_1yr = some (round2 p) ∧
    (processRow r).Price_per_SQFT_plus_2yr = some (round2 p) ∧
    (processRow r).Price_per_SQFT_plus_3yr = some (round2 p) := by
  simp only [processRow] at hc ⊢
  rw [hp, hc]
  norm_num [forecast]

/-- Witness for C9 at price 100.5 and locality rate 0: all forecasts equal
100.5, which is already at 2 decimal places. -/
theorem C9_zero_growth_identity_w :
    (processRow ⟨some (201/2), some 0, none, []⟩).Price_per_SQFT_plus_1yr = some (201/2) ∧
    (processRow ⟨some (201/2), some 0, none, []⟩).Price_per_SQFT_plus_2yr = some (201/2) ∧
    (processRow ⟨some (201/2), some 0, none, []⟩).Price_per_SQFT_plus_3yr = some (201/2) := by
  have h := C9_zero_growth_identity ⟨some (201/2), some 0, none, []⟩ (201/2) rfl rfl
  have hr : round2 (201/2 : ℚ) = 201/2 := by norm_num [round2, roundHalfToEven]
  rw [hr] at h
  exact h

/-- C10: With a present, non-negative price and a present, non-negative
chosen rate, the three forecasts exist and are non-decreasing in the horizon. -/
theorem C10_forecast_monotone_in_horizon (r : Row) (p c : ℚ)
    (hp : r.Price_per_SQFT = some p)
    (hc : (processRow r).chosen_cagr = some c)
    (hp0 : 0 ≤ p) (hc0 : 0 ≤ c) :
    ∃ f1 f2 f3,
      (processRow r).Price_per_SQFT_plus_1yr = some f1 ∧
      (processRow r).Price_per_SQFT_plus_2yr = some f2 ∧
      (processRow r).Price_per_SQFT_plus_3yr = some f3 ∧
      f1 ≤ f2 ∧ f2 ≤ f3 := by
  simp only [processRow] at hc ⊢
  rw [hp, hc]
  have h1c : (1 : ℚ) ≤ 1 + c := by linarith
  refine ⟨_, _, _, rfl, rfl, rfl, round2_mono ?_, round2_mono ?_⟩
  · exact mul_le_mul_of_nonneg_left (pow_le_pow_right₀ h1c (by omega)) hp0
  · exact mul_le_mul_of_nonneg_left (pow_le_pow_right₀ h1c (by omega)) hp0

/-- Witness for C10 at price 100 and locality rate 0.10. -/
theorem C10_forecast_monotone_in_horizon_w :
    ∃ f1 f2 f3,
      (processRow ⟨some 100, some (1/10), none, []⟩).Price_per_SQFT_plus_1yr = some f1 ∧
      (processRow ⟨some 100, some (1/10), none, []⟩).Price_per_SQFT_plus_2yr = some f2 ∧
      (processRow ⟨some 100, some (1/10), none, []⟩).Price_per_SQFT_plus_3yr = some f3 ∧
      f1 ≤ f2 ∧ f2 ≤ f3 :=
  C10_forecast_monotone_in_horizon _ 100 (1/10) rfl rfl (by norm_num) (by norm_num)

end Forecast
